import Mathlib

/-!
Verification of the booking-admission subsystem of the room-booking service.

The durable store (MongoDB) is modelled as a list of booking documents; each
repository operation is embedded as a pure function on that list, following the
semantics of the Mongo operations the source issues.  The two admission
strategies present in the source are both embedded:

* `createBooking` — the transactional read-then-insert of
  `src/backend/src/repositories/BookingRepository.ts` (`createBooking`),
  modelled as one atomic step, which is what the serializable transaction
  guarantees;
* `createAtomic` — the `findOneAndUpdate` upsert of `src/unnamed/part_013`
  (`createAtomic`), modelled with MongoDB's actual `findOneAndUpdate`
  semantics: the filter (including its `$nor` clause) is evaluated per
  document; when some document matches, `$setOnInsert` changes nothing and
  the matched document is returned; when no document matches, `upsert: true`
  inserts a new document (subject to the unique index on
  (roomId, startDate, endDate)); a thrown error is caught and `null` is
  returned.

The service layer (`BookingService.createBooking`, `RoomService
.checkAvailability`) and the cache helper are embedded likewise.
-/

namespace RoomBooking

/-- Reservation state, from the Booking model: 'CONFIRMED' | 'CANCELLED'. -/
inductive BookingStatus
  | confirmed
  | cancelled
deriving DecidableEq, Repr

/-- A booking document.  Ids are opaque (Nat); dates are timestamps (Int). -/
structure Booking where
  userId : Nat
  roomId : Nat
  startDate : Int
  endDate : Int
  status : BookingStatus
  version : Nat
deriving DecidableEq, Repr

/-- The per-document overlap condition used in every Mongo filter of the
source: `startDate: { $lt: endDate }, endDate: { $gt: startDate }` —
the stored document `b` overlaps the requested interval `[s, e)` iff
`b.startDate < e` and `b.endDate > s`. -/
def overlapsReq (b : Booking) (s e : Int) : Bool :=
  decide (b.startDate < e) && decide (s < b.endDate)

/-- Overlap of two stored reservations, the spec's predicate
`a.start < b.end AND b.start < a.end`. -/
def overlapsB (a b : Booking) : Bool :=
  decide (a.startDate < b.endDate) && decide (b.startDate < a.endDate)

/-- Two documents are a confirmed conflict when they are for the same room,
both CONFIRMED, and their intervals overlap. -/
def confirmedConflict (a b : Booking) : Bool :=
  a.roomId == b.roomId && (a.status == BookingStatus.confirmed)
    && (b.status == BookingStatus.confirmed) && overlapsB a b

/-- The core invariant of the spec: for any room the CONFIRMED reservations
are pairwise non-overlapping. -/
def nonOverlappingLedger : List Booking → Bool
  | [] => true
  | a :: rest => rest.all (fun b => !(confirmedConflict a b)) && nonOverlappingLedger rest

/-- `BookingRepository.findOverlapping`: all CONFIRMED bookings of the room
whose interval overlaps `[s, e)`. -/
def findOverlapping (ledger : List Booking) (roomId : Nat) (s e : Int) : List Booking :=
  ledger.filter (fun b =>
    b.roomId == roomId && (b.status == BookingStatus.confirmed) && overlapsReq b s e)

/-- `BookingRepository.createBooking` (the transactional strategy): inside one
serializable transaction, read the overlapping CONFIRMED bookings of the room;
if any exist return `null` (conflict), else insert the new CONFIRMED booking.
The transaction is modelled as one atomic step on the ledger. -/
def createBooking (ledger : List Booking) (userId roomId : Nat) (s e : Int) :
    Option Booking × List Booking :=
  let overlapping := findOverlapping ledger roomId s e
  if overlapping.length > 0 then
    (none, ledger)
  else
    let b : Booking := ⟨userId, roomId, s, e, BookingStatus.confirmed, 1⟩
    (some b, ledger ++ [b])

/-- The unique compound index declared by the Booking model
(`models/Booking.ts`, staged inside `src/backend/README.md`):
`bookingSchema.index({ roomId: 1, startDate: 1, endDate: 1 }, { unique: true })`.
True when inserting `(roomId, s, e)` would violate that unique index. -/
def uniqueTripleViolated (ledger : List Booking) (roomId : Nat) (s e : Int) : Bool :=
  ledger.any (fun b => b.roomId == roomId && b.startDate == s && b.endDate == e)

/-- `BookingRepository.createAtomic` (the upsert strategy), with MongoDB's
`findOneAndUpdate` semantics.  Filter:
`{ roomId, status: 'CONFIRMED', $nor: [{ startDate: { $lt: e }, endDate: { $gt: s } }] }`,
evaluated per document: a document matches iff it is a CONFIRMED booking of
the room that does NOT overlap `[s, e)`.
* If some document matches, `$setOnInsert` applies nothing and the matched
  document is returned unchanged (`new: true`).
* If no document matches, `upsert: true` inserts the new booking built from
  the equality fields and `$setOnInsert`; if that insert violates the unique
  (roomId, startDate, endDate) index the thrown duplicate-key error is caught
  and `null` is returned. -/
def createAtomic (ledger : List Booking) (userId roomId : Nat) (s e : Int) :
    Option Booking × List Booking :=
  match ledger.find? (fun b =>
      b.roomId == roomId && (b.status == BookingStatus.confirmed) && !(overlapsReq b s e)) with
  | some b => (some b, ledger)
  | none =>
    if uniqueTripleViolated ledger roomId s e then
      (none, ledger)
    else
      let b : Booking := ⟨userId, roomId, s, e, BookingStatus.confirmed, 1⟩
      (some b, ledger ++ [b])

/-- `createAtomic` as executed against a store that may fail: when the store
call throws (store unreachable / timeout), the `catch` block of
`createAtomic` swallows the error and returns `null`; the ledger is
modelled unchanged. -/
def createAtomicRun (storeOk : Bool) (ledger : List Booking) (userId roomId : Nat)
    (s e : Int) : Option Booking × List Booking :=
  if storeOk then createAtomic ledger userId roomId s e
  else (none, ledger)

/-- Outcome of `BookingService.createBooking`, distinguished in the source by
the thrown `statusCode`: 400 validation, 404 room not found, 409 conflict. -/
inductive Outcome
  | success (b : Booking)
  | validationError
  | roomNotFound
  | conflict
deriving DecidableEq, Repr

/-- Outcome of `RoomService.checkAvailability`. -/
inductive AvailOutcome
  | ok (available : Bool)
  | validationError
  | roomNotFound
deriving DecidableEq, Repr

/-- The Redis read-model cache, as a list of key/value entries. -/
abbrev Cache := List (String × String)

/-- `cacheHelper.del key`: remove the entry with that key. -/
def cacheDel (cache : Cache) (key : String) : Cache :=
  List.filter (fun kv => !(kv.fst == key)) cache

/-- Whether the first character list is an initial segment of the second;
`isStemOf stem.data key.data` is the trailing-star glob match `stem*` on
`key`. -/
def isStemOf : List Char → List Char → Bool
  | [], _ => true
  | _ :: _, [] => false
  | c :: cs, k :: ks => c == k && isStemOf cs ks

/-- `cacheHelper.clear pattern` at the call sites that pass a trailing-star
glob: remove every entry whose key starts with the given stem. -/
def cacheClearMatching (cache : Cache) (stem : String) : Cache :=
  List.filter (fun kv => !(isStemOf stem.data kv.fst.data)) cache

/-- The per-room detail cache key `room:` ++ id used by
`RoomService.getRoomById` and by the invalidator. -/
def roomCacheKey (roomId : Nat) : String :=
  "room:" ++ toString roomId

/-- The room-directory cache key built by `RoomService.getAllRooms`:
plain `rooms:all` without pagination, `rooms:all:limit:offset` (with `all`
and `0` as fallbacks) when a limit or offset is given. -/
def roomsListCacheKey (limit offset : Option Nat) : String :=
  match limit, offset with
  | none, none => "rooms:all"
  | _, _ =>
      "rooms:all:" ++ (match limit with | some l => toString l | none => "all")
        ++ ":" ++ (match offset with | some o => toString o | none => "0")

/-- `BookingService.invalidateRoomCache` of `src/unnamed/part_012` (first
variant, the one the claims cite): `cacheHelper.del('rooms:all')` then
`cacheHelper.del('room:' + roomId)`. -/
def invalidateRoomCacheDel (cache : Cache) (roomId : Nat) : Cache :=
  cacheDel (cacheDel cache "rooms:all") (roomCacheKey roomId)

/-- `BookingService.invalidateRoomCache`, the second variant in
`src/unnamed/part_012`: `cacheHelper.clear('rooms:all*')` then
`cacheHelper.del('room:' + roomId)`. -/
def invalidateRoomCacheClear (cache : Cache) (roomId : Nat) : Cache :=
  cacheDel (cacheClearMatching cache "rooms:all") (roomCacheKey roomId)

/-- `BookingService.createBooking` of `src/unnamed/part_012` (first variant):
validate `startDate < endDate` (else 400), check the room exists (else 404),
call `createAtomic`, map `null` to 409 Conflict; on success invalidate the
room cache inside a try/catch that only logs a failure (`cacheOk = false`
models a failing cache backend: the cache is untouched, the outcome is still
success).  `storeOk = false` models the durable store throwing during the
upsert. -/
def serviceCreateBooking (rooms : List Nat) (storeOk cacheOk : Bool)
    (ledger : List Booking) (cache : Cache) (userId roomId : Nat) (s e : Int) :
    Outcome × List Booking × Cache :=
  if e ≤ s then
    (Outcome.validationError, ledger, cache)
  else if rooms.contains roomId then
    match createAtomicRun storeOk ledger userId roomId s e with
    | (none, l) => (Outcome.conflict, l, cache)
    | (some b, l) =>
        (Outcome.success b, l,
          if cacheOk then invalidateRoomCacheDel cache roomId else cache)
  else
    (Outcome.roomNotFound, ledger, cache)

/-- `BookingService.createBooking`, second variant of `src/unnamed/part_012`:
identical validation and mapping, but the admission uses the transactional
`createBooking` repository strategy. -/
def serviceCreateBookingTx (rooms : List Nat) (cacheOk : Bool)
    (ledger : List Booking) (cache : Cache) (userId roomId : Nat) (s e : Int) :
    Outcome × List Booking × Cache :=
  if e ≤ s then
    (Outcome.validationError, ledger, cache)
  else if rooms.contains roomId then
    match createBooking ledger userId roomId s e with
    | (none, l) => (Outcome.conflict, l, cache)
    | (some b, l) =>
        (Outcome.success b, l,
          if cacheOk then invalidateRoomCacheClear cache roomId else cache)
  else
    (Outcome.roomNotFound, ledger, cache)

/-- `RoomService.checkAvailability`: parse/validate the dates (400 when
`start >= end`), check the room exists (404 otherwise), then read the ledger
directly — `findOverlapping`, no cache — and answer
`is_available = (overlapping.length == 0)`.  The ambient cache singleton is a
parameter the function never consults; the ledger is returned unchanged (the
operation performs no write). -/
def checkAvailability (_cache : Cache) (rooms : List Nat) (ledger : List Booking)
    (roomId : Nat) (s e : Int) : AvailOutcome × List Booking :=
  if e ≤ s then
    (AvailOutcome.validationError, ledger)
  else if rooms.contains roomId then
    (AvailOutcome.ok ((findOverlapping ledger roomId s e).length == 0), ledger)
  else
    (AvailOutcome.roomNotFound, ledger)

/-- Result of `redisClient.get`: the client may throw, or report the key
absent, or return the stored string. -/
inductive RedisRead
  | storeError
  | missing
  | value (raw : String)
deriving DecidableEq, Repr

/-- The body of the `try` block of `cacheHelper.get`: `redisClient.get`
(which may throw), the falsy check returning `null`, then `JSON.parse`
(which may throw; `parse` is the partial JSON decoder for the cached type). -/
def cacheGetRaw (redis : String → RedisRead) (parse : String → Option α)
    (key : String) : Except Unit (Option α) :=
  match redis key with
  | RedisRead.storeError => Except.error ()
  | RedisRead.missing => Except.ok none
  | RedisRead.value raw =>
      match parse raw with
      | none => Except.error ()
      | some v => Except.ok (some v)

/-- `cacheHelper.get`: the `catch` block logs and returns `null`, so every
thrown error of the `try` body becomes a plain `null` result. -/
def cacheHelperGet (redis : String → RedisRead) (parse : String → Option α)
    (key : String) : Option α :=
  match cacheGetRaw redis parse key with
  | Except.error _ => none
  | Except.ok r => r

/-- Claim C1: the set of CONFIRMED reservations of a room is claimed to stay
pairwise non-overlapping, with an admit recording a CONFIRMED reservation only
when no existing CONFIRMED reservation of the room overlaps it.  The
`createAtomic` admission path violates this: starting from an empty ledger,
an admit of `[0, 10)` on room 1 and then an admit of the overlapping `[1, 9)`
on room 1 both return success, and the ledger ends with two overlapping
CONFIRMED reservations for room 1 — the upsert filter's `$nor` clause is
evaluated per document, so when every CONFIRMED booking of the room overlaps
the request no document matches and the upsert inserts. -/
theorem claim1_createAtomic_admits_overlapping_pair :
    serviceCreateBooking [1] true true [] [] 1 1 0 10
      = (Outcome.success ⟨1, 1, 0, 10, BookingStatus.confirmed, 1⟩,
         [⟨1, 1, 0, 10, BookingStatus.confirmed, 1⟩], [])
    ∧ serviceCreateBooking [1] true true [⟨1, 1, 0, 10, BookingStatus.confirmed, 1⟩] [] 2 1 1 9
      = (Outcome.success ⟨2, 1, 1, 9, BookingStatus.confirmed, 1⟩,
         [⟨1, 1, 0, 10, BookingStatus.confirmed, 1⟩,
          ⟨2, 1, 1, 9, BookingStatus.confirmed, 1⟩], [])
    ∧ overlapsB ⟨1, 1, 0, 10, BookingStatus.confirmed, 1⟩
        ⟨2, 1, 1, 9, BookingStatus.confirmed, 1⟩ = true
    ∧ nonOverlappingLedger
        [⟨1, 1, 0, 10, BookingStatus.confirmed, 1⟩,
         ⟨2, 1, 1, 9, BookingStatus.confirmed, 1⟩] = false := by
  decide

/-- Claim C2: an admit whose interval overlaps no existing CONFIRMED
reservation is claimed to succeed AND to add one new CONFIRMED reservation
recording exactly the requested interval.  On the `createAtomic` path the
call does return success, but the upsert's filter matches the pre-existing
non-overlapping document, `$setOnInsert` applies nothing, the pre-existing
reservation is returned as the result, and the ledger is unchanged: no
reservation recording the requested `[2, 3)` is ever created. -/
theorem claim2_nonoverlapping_admit_records_nothing :
    serviceCreateBooking [1] true true [⟨1, 1, 0, 1, BookingStatus.confirmed, 1⟩] [] 2 1 2 3
      = (Outcome.success ⟨1, 1, 0, 1, BookingStatus.confirmed, 1⟩,
         [⟨1, 1, 0, 1, BookingStatus.confirmed, 1⟩], []) := by
  decide

/-- Claim C3: a store write failure is claimed to surface as a distinct
Indeterminate/Timeout or StoreUnavailable condition, never as Conflict and
never as success.  In the code, the `catch` block of `createAtomic` swallows
every store error and returns `null`, which `BookingService.createBooking`
maps to 409 Conflict: the very same admit that succeeds against a healthy
store is reported as Conflict when the store call throws. -/
theorem claim3_store_failure_surfaced_as_conflict :
    (serviceCreateBooking [1] false true [] [] 1 1 0 1).1 = Outcome.conflict
    ∧ (serviceCreateBooking [1] true true [] [] 1 1 0 1).1
        = Outcome.success ⟨1, 1, 0, 1, BookingStatus.confirmed, 1⟩ := by
  decide

/-- Claim C4: the overlap test used on the admission and availability paths
returns true iff `a.start < b.end` and `b.start < a.end`; a stored
reservation `[T1, T2)` never overlaps a request `[T2, T3)` sharing the
boundary `T2`, and admitting the second reservation succeeds, recording it. -/
theorem claim4_overlap_predicate_halfopen (b : Booking) (s e T1 T2 T3 : Int)
    (u v r : Nat) (hT : T2 < T3) :
    (overlapsReq b s e = true ↔ (b.startDate < e ∧ s < b.endDate))
    ∧ overlapsReq ⟨u, r, T1, T2, BookingStatus.confirmed, 1⟩ T2 T3 = false
    ∧ serviceCreateBookingTx [r] true [⟨u, r, T1, T2, BookingStatus.confirmed, 1⟩] [] v r T2 T3
        = (Outcome.success ⟨v, r, T2, T3, BookingStatus.confirmed, 1⟩,
           [⟨u, r, T1, T2, BookingStatus.confirmed, 1⟩,
            ⟨v, r, T2, T3, BookingStatus.confirmed, 1⟩], []) := by
  refine ⟨by simp [overlapsReq], by simp [overlapsReq], ?_⟩
  simp [serviceCreateBookingTx, createBooking, findOverlapping, overlapsReq,
    not_le.mpr hT, invalidateRoomCacheClear, cacheClearMatching, cacheDel, roomCacheKey]

/-- Witness for claim C4 at `T1 = 0`, `T2 = 5`, `T3 = 9`. -/
theorem claim4_overlap_predicate_halfopen_witness :
    (0 : Int) < 5 ∧ (5 : Int) < 9
    ∧ (overlapsReq ⟨1, 1, 0, 5, BookingStatus.confirmed, 1⟩ 2 3 = true
        ↔ ((0 : Int) < 3 ∧ (2 : Int) < 5))
    ∧ overlapsReq ⟨1, 1, 0, 5, BookingStatus.confirmed, 1⟩ 5 9 = false
    ∧ serviceCreateBookingTx [1] true [⟨1, 1, 0, 5, BookingStatus.confirmed, 1⟩] [] 2 1 5 9
        = (Outcome.success ⟨2, 1, 5, 9, BookingStatus.confirmed, 1⟩,
           [⟨1, 1, 0, 5, BookingStatus.confirmed, 1⟩,
            ⟨2, 1, 5, 9, BookingStatus.confirmed, 1⟩], []) := by
  have h := claim4_overlap_predicate_halfopen
    ⟨1, 1, 0, 5, BookingStatus.confirmed, 1⟩ 2 3 0 5 9 1 2 1 (by decide)
  exact ⟨by decide, by decide, h.1, h.2.1, h.2.2⟩

/-- Claim C5: exactly one ledger write on success and zero on any other
outcome.  The non-success half holds, but on the `createAtomic` path a
success outcome can occur with zero writes: an admit of `[5, 6)` on a room
whose only CONFIRMED reservation is the non-overlapping `[0, 1)` returns
success while the ledger is left unchanged (the pre-existing document is
returned; nothing is inserted). -/
theorem claim5_success_outcome_with_zero_writes :
    (serviceCreateBooking [3] true true [⟨1, 3, 0, 1, BookingStatus.confirmed, 1⟩] [] 2 3 5 6).1
      = Outcome.success ⟨1, 3, 0, 1, BookingStatus.confirmed, 1⟩
    ∧ (serviceCreateBooking [3] true true [⟨1, 3, 0, 1, BookingStatus.confirmed, 1⟩] [] 2 3 5 6).2.1
      = [⟨1, 3, 0, 1, BookingStatus.confirmed, 1⟩] := by
  decide

/-- Claim C6: an admit with `start >= end` yields ValidationError and leaves
the ledger unchanged; an admit for an unknown room (with a well-formed
interval) short-circuits with RoomNotFound before any write, leaving the
ledger unchanged. -/
theorem claim6_validation_and_room_checks (rooms : List Nat) (storeOk cacheOk : Bool)
    (ledger : List Booking) (cache : Cache) (u r : Nat) (s e : Int) :
    (e ≤ s → serviceCreateBooking rooms storeOk cacheOk ledger cache u r s e
        = (Outcome.validationError, ledger, cache))
    ∧ (s < e → rooms.contains r = false →
        serviceCreateBooking rooms storeOk cacheOk ledger cache u r s e
          = (Outcome.roomNotFound, ledger, cache)) := by
  constructor
  · intro h
    simp [serviceCreateBooking, h]
  · intro h1 h2
    have h3 : r ∉ rooms := by simpa using h2
    simp [serviceCreateBooking, not_le.mpr h1, h3]

/-- Witness for claim C6: `admit(5, [1, 1))` is rejected as ValidationError
and `admit(9, [0, 1))` with unknown room 9 as RoomNotFound. -/
theorem claim6_validation_and_room_checks_witness :
    ((1 : Int) ≤ 1
      ∧ serviceCreateBooking [5] true true [] [] 1 5 1 1
          = (Outcome.validationError, [], []))
    ∧ ((0 : Int) < 1 ∧ List.contains [5] 9 = false
      ∧ serviceCreateBooking [5] true true [] [] 1 9 0 1
          = (Outcome.roomNotFound, [], [])) := by
  refine ⟨⟨le_refl 1, ?_⟩, ⟨by decide, by decide, ?_⟩⟩
  · exact (claim6_validation_and_room_checks [5] true true [] [] 1 5 1 1).1 (le_refl 1)
  · exact (claim6_validation_and_room_checks [5] true true [] [] 1 9 0 1).2
      (by decide) (by decide)

/-- Claim C7: the durable unique index on (roomId, startDate, endDate) —
declared by the Booking model's
`bookingSchema.index({ roomId: 1, startDate: 1, endDate: 1 }, { unique: true })`
— is claimed to make the second of two byte-identical sequential admits
always return Conflict.  That holds on an otherwise empty room, but fails as
a general statement: when the room also holds a non-overlapping CONFIRMED
reservation, both identical admits match that document in the upsert filter
and both return success (no insert ever happens, so the unique index is
never even consulted). -/
theorem claim7_identical_admits_second_not_conflict :
    (serviceCreateBooking [1] true true [] [] 2 1 0 5).1
      = Outcome.success ⟨2, 1, 0, 5, BookingStatus.confirmed, 1⟩
    ∧ (serviceCreateBooking [1] true true [⟨2, 1, 0, 5, BookingStatus.confirmed, 1⟩] [] 2 1 0 5).1
      = Outcome.conflict
    ∧ serviceCreateBooking [1] true true [⟨9, 1, 10, 20, BookingStatus.confirmed, 1⟩] [] 2 1 0 5
      = (Outcome.success ⟨9, 1, 10, 20, BookingStatus.confirmed, 1⟩,
         [⟨9, 1, 10, 20, BookingStatus.confirmed, 1⟩], [])
    ∧ (serviceCreateBooking [1] true true [⟨9, 1, 10, 20, BookingStatus.confirmed, 1⟩] [] 2 1 0 5).1
      ≠ Outcome.conflict := by
  decide

/-- Claim C8: the availability check answers from the ledger alone — its
result is the same for any two cache states — performs no write (the ledger
comes back unchanged), errors with ValidationError when `start >= end` and
with RoomNotFound when the room id is unknown, and otherwise reports
available iff no CONFIRMED reservation of the room overlaps `[s, e)`. -/
theorem claim8_checkAvailability_contract (c c' : Cache) (rooms : List Nat)
    (ledger : List Booking) (r : Nat) (s e : Int) :
    checkAvailability c rooms ledger r s e = checkAvailability c' rooms ledger r s e
    ∧ (checkAvailability c rooms ledger r s e).2 = ledger
    ∧ (e ≤ s → (checkAvailability c rooms ledger r s e).1 = AvailOutcome.validationError)
    ∧ (s < e → rooms.contains r = false →
        (checkAvailability c rooms ledger r s e).1 = AvailOutcome.roomNotFound)
    ∧ (s < e → rooms.contains r = true →
        ((checkAvailability c rooms ledger r s e).1 = AvailOutcome.ok true ↔
          ∀ b ∈ ledger, b.roomId = r → b.status = BookingStatus.confirmed →
            overlapsReq b s e = false)) := by
  refine ⟨rfl, ?_, ?_, ?_, ?_⟩
  · unfold checkAvailability
    split
    · rfl
    · split <;> rfl
  · intro h
    simp [checkAvailability, h]
  · intro h1 h2
    have h3 : r ∉ rooms := by simpa using h2
    simp [checkAvailability, not_le.mpr h1, h3]
  · intro h1 h2
    have hne : ¬ e ≤ s := not_le.mpr h1
    simp only [checkAvailability, hne, if_false, h2, if_true]
    simp only [AvailOutcome.ok.injEq, beq_iff_eq, List.length_eq_zero,
      findOverlapping, List.filter_eq_nil_iff]
    constructor
    · intro h b hb hroom hst
      have hb2 := h b hb
      simp [hroom, hst] at hb2
      exact hb2
    · intro h b hb hcon
      simp only [Bool.and_eq_true, beq_iff_eq] at hcon
      obtain ⟨⟨ha, hst⟩, hov⟩ := hcon
      rw [h b hb ha hst] at hov
      simp at hov

/-- Witness for claim C8 on a concrete ledger: room 1 with a CONFIRMED
reservation `[0, 10)`, availability of `[3, 5)` queried under two distinct
cache states. -/
theorem claim8_checkAvailability_contract_witness :
    checkAvailability [("rooms:all", "x")] [1] [⟨1, 1, 0, 10, BookingStatus.confirmed, 1⟩] 1 3 5
      = checkAvailability [] [1] [⟨1, 1, 0, 10, BookingStatus.confirmed, 1⟩] 1 3 5
    ∧ (checkAvailability [("rooms:all", "x")] [1]
        [⟨1, 1, 0, 10, BookingStatus.confirmed, 1⟩] 1 3 5).2
      = [⟨1, 1, 0, 10, BookingStatus.confirmed, 1⟩]
    ∧ (3 : Int) < 5 ∧ List.contains [1] 1 = true
    ∧ ((checkAvailability [("rooms:all", "x")] [1]
          [⟨1, 1, 0, 10, BookingStatus.confirmed, 1⟩] 1 3 5).1 = AvailOutcome.ok true ↔
        ∀ b ∈ [(⟨1, 1, 0, 10, BookingStatus.confirmed, 1⟩ : Booking)],
          b.roomId = 1 → b.status = BookingStatus.confirmed →
            overlapsReq b 3 5 = false) := by
  have h := claim8_checkAvailability_contract [("rooms:all", "x")] [] [1]
    [⟨1, 1, 0, 10, BookingStatus.confirmed, 1⟩] 1 3 5
  exact ⟨h.1, h.2.1, by decide, by decide, h.2.2.2.2 (by decide) (by decide)⟩

/-- Claim C9: cache invalidation after a successful admission is claimed to
expire every room-list and per-room cache entry that could be stale.  The
cited `del`-based invalidator removes only the exact keys `rooms:all` and
`room:id`, while `RoomService.getAllRooms` also caches paginated directory
entries under `rooms:all:limit:offset`; after a successful booking such an
entry survives (the `clear`-based variant of the other service file does
remove it). -/
theorem claim9_paginated_list_cache_survives_invalidation :
    roomsListCacheKey (some 10) (some 0) = "rooms:all:10:0"
    ∧ serviceCreateBooking [1] true true [] []
        7 1 0 1
      = (Outcome.success ⟨7, 1, 0, 1, BookingStatus.confirmed, 1⟩,
         [⟨7, 1, 0, 1, BookingStatus.confirmed, 1⟩], [])
    ∧ invalidateRoomCacheDel
        [("rooms:all:10:0", "stale"), ("rooms:all", "a"), ("room:1", "b")] 1
      = [("rooms:all:10:0", "stale")]
    ∧ invalidateRoomCacheClear
        [("rooms:all:10:0", "stale"), ("rooms:all", "a"), ("room:1", "b")] 1
      = [] := by
  refine ⟨rfl, rfl, rfl, by decide⟩

/-- Claim C10: `cacheHelper.get` is total at its interface: it returns the
parsed cached value when the key holds valid bytes, and `null` — never an
error — when the key is absent, when the stored bytes fail to parse, and
when the underlying store read throws. -/
theorem claim10_cacheHelperGet_total {α : Type} (redis : String → RedisRead)
    (parse : String → Option α) (key : String) :
    (redis key = RedisRead.missing → cacheHelperGet redis parse key = none)
    ∧ (redis key = RedisRead.storeError → cacheHelperGet redis parse key = none)
    ∧ (∀ raw, redis key = RedisRead.value raw → parse raw = none →
        cacheHelperGet redis parse key = none)
    ∧ (∀ raw v, redis key = RedisRead.value raw → parse raw = some v →
        cacheHelperGet redis parse key = some v) := by
  refine ⟨?_, ?_, ?_, ?_⟩
  · intro h
    simp [cacheHelperGet, cacheGetRaw, h]
  · intro h
    simp [cacheHelperGet, cacheGetRaw, h]
  · intro raw h1 h2
    simp [cacheHelperGet, cacheGetRaw, h1, h2]
  · intro raw v h1 h2
    simp [cacheHelperGet, cacheGetRaw, h1, h2]

/-- Witness for claim C10: a store whose read throws on every key still
yields a plain `null` from `cacheHelper.get`. -/
theorem claim10_cacheHelperGet_total_witness :
    (fun _ : String => RedisRead.storeError) "rooms:all" = RedisRead.storeError
    ∧ cacheHelperGet (fun _ : String => RedisRead.storeError)
        (fun _ : String => (none : Option Nat)) "rooms:all" = none := by
  refine ⟨rfl, ?_⟩
  exact (claim10_cacheHelperGet_total (fun _ : String => RedisRead.storeError)
    (fun _ : String => (none : Option Nat)) "rooms:all").2.1 rfl

end RoomBooking
